import Mathlib

/-!
Verification of the PesajesBot conversation workflow engine (src/main.py).

The development shallowly embeds the parts of the program that the claims
touch: the pure validator functions, the per-user FSM steps of the flows the
claims cite, the silo-unload accumulate loop, the multiple-identity anomaly
check, the delivery (persist + notify) traces, and the inactivity-timeout
middleware.  Python floats are modelled as rationals; Python strings as Lean
strings, with `str.strip` / `str.isdigit` / `int()` / `float()` modelled on
their plain ASCII fragments (no exotic Unicode digit categories, no exponent
or infinity literals), which covers every input class the claims quantify
over.
-/

/-! ## String and number utilities (models of the Python built-ins used) -/

/-- Model of Python `str.strip()` on a char list: drop whitespace at both ends. -/
def stripL (cs : List Char) : List Char :=
  ((cs.dropWhile Char.isWhitespace).reverse.dropWhile Char.isWhitespace).reverse

/-- Model of Python `str.strip()`. -/
def pyStrip (s : String) : String := String.mk (stripL s.toList)

/-- All characters are ASCII digits. -/
def esDigitos (cs : List Char) : Bool := cs.all Char.isDigit

/-- Numeric value of a digit list (most significant first). -/
def valorNat (cs : List Char) : ℕ := cs.foldl (fun a c => 10 * a + (c.toNat - 48)) 0

/-- Model of Python `str.isdigit()` on the ASCII fragment: non-empty, all digits. -/
def pyIsdigit (s : String) : Bool := decide (s.toList ≠ []) && esDigitos s.toList

/-- Model of Python `str.lower()` (ASCII fragment). -/
def aMinusculas (s : String) : String := String.mk (s.toList.map Char.toLower)

/-- Model of `valor.replace(",", ".")`: replace every comma by a dot. -/
def reemplazarComaPorPunto (s : String) : String :=
  String.mk (s.toList.map fun c => if c = ',' then '.' else c)

/-- `sub` occurs as a contiguous infix of the list. -/
def hayInfijo (sub : List Char) : List Char → Bool
  | [] => sub.isEmpty
  | c :: cs => sub.isPrefixOf (c :: cs) || hayInfijo sub cs

/-- Model of the Python substring test `sub in s`. -/
def contiene (s sub : String) : Bool := hayInfijo sub.toList s.toList

/-- Digit parse of a plain decimal literal, scaled: returns
`(value of all digits ignoring the dot, number of fractional digits)`.
Accepts `\d+`, `\d+.\d*`, `\d*.\d+`, rejecting everything else. -/
def parseDecEscalado (cs : List Char) : Option (ℕ × ℕ) :=
  let ent := cs.takeWhile (fun c => c ≠ '.')
  let resto := cs.dropWhile (fun c => c ≠ '.')
  match resto with
  | [] => if decide (ent ≠ []) && esDigitos ent then some (valorNat ent, 0) else none
  | _ :: frac =>
    if (decide (ent ≠ []) || decide (frac ≠ [])) && esDigitos ent && esDigitos frac
        && !(frac.contains '.') then
      some (valorNat ent * 10 ^ frac.length + valorNat frac, frac.length)
    else none

/-- Model of Python `float()` on the plain decimal-literal fragment: optional
surrounding whitespace, optional sign, digits with an optional dot.  Exponent
forms, `inf` and `nan` are outside the modelled fragment. -/
def pyFloat? (s : String) : Option ℚ :=
  match stripL s.toList with
  | '-' :: resto => (parseDecEscalado resto).map fun p => -((p.1 : ℚ) / 10 ^ p.2)
  | '+' :: resto => (parseDecEscalado resto).map fun p => (p.1 : ℚ) / 10 ^ p.2
  | cs => (parseDecEscalado cs).map fun p => (p.1 : ℚ) / 10 ^ p.2

/-- Model of Python `int()` on the plain decimal-integer fragment: optional
surrounding whitespace, optional sign, one or more digits. -/
def pyInt? (s : String) : Option ℤ :=
  match stripL s.toList with
  | '-' :: resto =>
    if decide (resto ≠ []) && esDigitos resto then some (-(valorNat resto : ℤ)) else none
  | '+' :: resto =>
    if decide (resto ≠ []) && esDigitos resto then some ((valorNat resto : ℤ)) else none
  | cs => if decide (cs ≠ []) && esDigitos cs then some ((valorNat cs : ℤ)) else none

/-- Model of Python `round(x, 2)` on rationals (round half up; the
half-to-even behaviour of binary floats at exact third-decimal midpoints is
below the granularity any claim exercises). -/
def redondear2 (q : ℚ) : ℚ := (round (q * 100) : ℤ) / 100

/-- `validar_cedula` (main.py:366): `valor.isdigit()` — digits only, any length. -/
def validar_cedula (valor : String) : Bool := pyIsdigit valor

/-- `validar_cedula_sitio3` (main.py:414): digits only and length in [6,12]. -/
def validar_cedula_sitio3 (valor : String) : Bool :=
  pyIsdigit valor && decide (6 ≤ valor.length) && decide (valor.length ≤ 12)

/-- Rest of `re.fullmatch(r"^\d+(,\d+)?$", ...)` after the first char:
digits, then optionally a comma followed by one or more digits. -/
def digitosLuegoComaOpcional : List Char → Bool
  | [] => true
  | c :: cs =>
    if c.isDigit then digitosLuegoComaOpcional cs
    else if c = ',' then decide (cs ≠ []) && esDigitos cs
    else false

/-- `validar_peso` (main.py:410): `re.fullmatch(r"^\d+(,\d+)?$", valor)`.
Note the regex admits only a comma as fractional separator and imposes no
upper bound. -/
def validar_peso (valor : String) : Bool :=
  match valor.toList with
  | [] => false
  | c :: cs => c.isDigit && digitosLuegoComaOpcional cs

/-- `validar_numero_entero` (main.py:376): `int(valor)` within `[minimo, maximo]`.
Returns `(es_valido, numero)`; the error message strings are not modelled. -/
def validar_numero_entero (valor : String) (minimo maximo : ℤ) : Bool × ℤ :=
  match pyInt? valor with
  | none => (false, 0)
  | some numero =>
    if numero < minimo then (false, 0)
    else if numero > maximo then (false, 0)
    else (true, numero)

/-- `validar_peso_toneladas` (main.py:538): comma normalized to dot, `float`,
rejects negatives and values over 50, rounds to 2 decimals.  `none` models
the `(False, 0.0, msg)` returns. -/
def validar_peso_toneladas (valor : String) : Option ℚ :=
  match pyFloat? (reemplazarComaPorPunto valor) with
  | none => none
  | some peso =>
    if peso < 0 then none
    else if peso > 50 then none
    else some (redondear2 peso)

/-- `validar_peso_kilos_descargue` (main.py:3793): comma normalized to dot,
`float`, requires a value strictly over 0 and at most 25000, rounds to 2
decimals. -/
def validar_peso_kilos_descargue (valor : String) : Option ℚ :=
  match pyFloat? (reemplazarComaPorPunto valor) with
  | none => none
  | some peso =>
    if peso ≤ 0 then none
    else if peso > 25000 then none
    else some (redondear2 peso)

/-! ## Session model and the flow handlers the claims cite

aiogram's `FSMContext` is modelled as an optional state identifier plus an
ordered key/value data mapping (`state.update_data` keeps the position of an
existing key and appends a new one, like a Python dict).  Each handler maps a
session and the raw message text to the successor session together with the
prompts sent. -/

/-- The FSM states of the handlers embedded in this development
(`RegistroState` / `ConductoresState` members, main.py:191-343). -/
inductive EstadoFSM
  | menu_principal
  | sitio3_cedula
  | sitio3_confirmar_cedula
  | sitio3_numero_banda
  | medicion_cedula
  | medicion_confirmar_cedula
  | medicion_seleccion_silos
  | cerdos_vivos
  | confirmar_cerdos_vivos
  | peso
deriving DecidableEq

/-- A value stored in the FSM data mapping. -/
inductive Valor
  | s (v : String)
  | i (v : ℤ)
  | q (v : ℚ)
deriving DecidableEq

/-- A per-user session: current FSM state (none = no state) and data. -/
structure Sesion where
  estado : Option EstadoFSM
  datos : List (String × Valor)
deriving DecidableEq

/-- `state.update_data(k=v)`: replace the value at an existing key in place,
else append the pair. -/
def ponDato : List (String × Valor) → String → Valor → List (String × Valor)
  | [], k, v => [(k, v)]
  | p :: ps, k, v => if p.1 = k then (k, v) :: ps else p :: ponDato ps k v

/-- `data.get(k)`. -/
def buscaDato : List (String × Valor) → String → Option Valor
  | [], _ => none
  | p :: ps, k => if p.1 = k then some p.2 else buscaDato ps k

/-- The prompts a handler can send (message text itself is out of scope). -/
inductive Pregunta
  | menuPrincipal
  | cancelada
  | cedulaInvalida
  | confirmarCedula (c : String)
  | pedirCedula
  | pedirBanda
  | pedirSiloUnico
  | confirmarCantidad (n : ℤ)
  | pedirCerdosVivos
  | pedirPeso
  | opcionInvalida
  | sinManejadorEmbebido
  | sugerirInicio
deriving DecidableEq

/-- A handler result: successor session and prompts sent. -/
abbrev Paso := Sesion × List Pregunta

/-- `sitio3_get_cedula` (main.py:3072): strip, validate with
`validar_cedula_sitio3`; on failure re-prompt leaving the session untouched,
on success store `sitio3_cedula` and move to the confirm state. -/
def sitio3_get_cedula (s : Sesion) (texto : String) : Paso :=
  let cedula := pyStrip texto
  if validar_cedula_sitio3 cedula then
    ({ estado := some .sitio3_confirmar_cedula,
       datos := ponDato s.datos "sitio3_cedula" (.s cedula) },
     [.confirmarCedula cedula])
  else (s, [.cedulaInvalida])

/-- `medicion_get_cedula` (main.py:3827): same shape for the silo-fill flow. -/
def medicion_get_cedula (s : Sesion) (texto : String) : Paso :=
  let cedula := pyStrip texto
  if validar_cedula_sitio3 cedula then
    ({ estado := some .medicion_confirmar_cedula,
       datos := ponDato s.datos "medicion_cedula" (.s cedula) },
     [.confirmarCedula cedula])
  else (s, [.cedulaInvalida])

/-- The three handlers registered on `RegistroState.sitio3_confirmar_cedula`
(main.py:3095-3138) seen as one step: "1" confirms (the anomaly check it
triggers is modelled separately and does not touch the session), "2" goes
back to the cedula question, anything else re-prompts without mutating. -/
def sitio3_confirmar_cedula_paso (s : Sesion) (texto : String) : Paso :=
  if texto = "1" then ({ s with estado := some .sitio3_numero_banda }, [.pedirBanda])
  else if texto = "2" then ({ s with estado := some .sitio3_cedula }, [.pedirCedula])
  else (s, [.opcionInvalida])

/-- The handlers on `RegistroState.medicion_confirmar_cedula`
(main.py:3850-3902), same shape. -/
def medicion_confirmar_cedula_paso (s : Sesion) (texto : String) : Paso :=
  if texto = "1" then ({ s with estado := some .medicion_seleccion_silos }, [.pedirSiloUnico])
  else if texto = "2" then ({ s with estado := some .medicion_cedula }, [.pedirCedula])
  else (s, [.opcionInvalida])

/-- `procesar_cerdos_vivos` (main.py:2059): validate with
`validar_numero_entero(minimo=0, maximo=5000)`; on success store
`cerdos_vivos_temp` and ask for confirmation. -/
def procesar_cerdos_vivos (s : Sesion) (texto : String) : Paso :=
  match validar_numero_entero (pyStrip texto) 0 5000 with
  | (true, n) =>
    ({ estado := some .confirmar_cerdos_vivos,
       datos := ponDato s.datos "cerdos_vivos_temp" (.i n) },
     [.confirmarCantidad n])
  | (false, _) => (s, [.cedulaInvalida])

/-- `confirmar_cerdos_vivos` (main.py:2072): substring matching on the lowered
text; "1"/"confirmar" commits `cerdos_vivos` and the derived `cerdos_muertos`
and moves to the weight question; "2"/"modificar" re-asks; else re-prompts. -/
def confirmar_cerdos_vivos_paso (s : Sesion) (texto : String) : Paso :=
  let t := aMinusculas (pyStrip texto)
  if contiene t "2" || contiene t "modificar" then
    ({ s with estado := some .cerdos_vivos }, [.pedirCerdosVivos])
  else if contiene t "1" || contiene t "confirmar" then
    match buscaDato s.datos "cerdos_vivos_temp" with
    | some (.i vivos) =>
      let total := match buscaDato s.datos "num_animales" with
        | some (.i n) => n
        | _ => 0
      ({ estado := some .peso,
         datos := ponDato (ponDato s.datos "cerdos_vivos" (.i vivos))
           "cerdos_muertos" (.i (total - vivos)) },
       [.pedirPeso])
    | _ => (s, [])
  else (s, [.opcionInvalida])

/-- `cancelar_operacion` (main.py:937): when a non-menu state is active,
`volver_menu_principal` clears the session and shows the main menu. -/
def cancelar_operacion (s : Sesion) : Paso :=
  match s.estado with
  | some e =>
    if e ≠ .menu_principal then
      ({ estado := some .menu_principal, datos := [] }, [.cancelada, .menuPrincipal])
    else (s, [])
  | none => (s, [])

/-- The dispatcher: aiogram runs message handlers in registration order and
`cancelar_operacion` is registered (with filter `F.text == "0"`, exact raw
text) before every flow handler, so the text "0" is consumed by it no matter
which flow handler would otherwise match.  The flow-specific handlers are
abstracted as a parameter. -/
def despachar (manejador : Sesion → String → Paso) (s : Sesion) (texto : String) : Paso :=
  if texto = "0" then cancelar_operacion s else manejador s texto

/-- The state-keyed table of the handlers embedded above.  States whose
handlers are not embedded in this development answer a marker prompt; no
theorem below depends on them. -/
def manejadoresEmbebidos (s : Sesion) (texto : String) : Paso :=
  match s.estado with
  | some .sitio3_cedula => sitio3_get_cedula s texto
  | some .sitio3_confirmar_cedula => sitio3_confirmar_cedula_paso s texto
  | some .medicion_cedula => medicion_get_cedula s texto
  | some .medicion_confirmar_cedula => medicion_confirmar_cedula_paso s texto
  | some .cerdos_vivos => procesar_cerdos_vivos s texto
  | some .confirmar_cerdos_vivos => confirmar_cerdos_vivos_paso s texto
  | some _ => (s, [.sinManejadorEmbebido])
  | none => (s, [.sugerirInicio])

/-! ## The destination silo-unload accumulate loop (main.py:5519-5692)

The handlers work on the accumulated list `silos`, the running sum
`total_silos` and the declared scale weight `peso_bascula_general`. -/

/-- One accumulated silo unload: silo number and unloaded weight. -/
structure SiloDescarga where
  numero : ℕ
  peso : ℚ
deriving DecidableEq

/-- `sum(s['peso'] for s in silos)`. -/
def totalSilos (silos : List SiloDescarga) : ℚ := (silos.map SiloDescarga.peso).sum

/-- Where a silo-loop handler leaves the flow. -/
inductive PasoDestino
  | foto
  | siloNum
deriving DecidableEq

/-- Outcome of `destino_confirmar_silo` (main.py:5586): the appended list, the
new running total, whether the excess warning was shown, whether the group
channel was messaged (this handler never does), and the next state. -/
structure ResultadoConfirmarSilo where
  silos : List SiloDescarga
  total : ℚ
  avisoExceso : Bool
  alertaGrupo : Bool
  siguiente : PasoDestino
deriving DecidableEq

/-- `destino_confirmar_silo` (main.py:5586-5634): append the confirmed silo,
recompute the total; if the total reached the scale weight, go to the photo
step (silently within 0.1, with an excess warning beyond); otherwise ask
whether to unload another silo (state stays `silo_num`). -/
def destino_confirmar_silo (silosPrevios : List SiloDescarga) (siloActual : ℕ)
    (pesoSilo pesoBascula : ℚ) : ResultadoConfirmarSilo :=
  let silos := silosPrevios ++ [⟨siloActual, pesoSilo⟩]
  let total := totalSilos silos
  if total ≥ pesoBascula then
    if |total - pesoBascula| ≤ 1/10 then ⟨silos, total, false, false, .foto⟩
    else ⟨silos, total, true, false, .foto⟩
  else ⟨silos, total, false, false, .siloNum⟩

/-- Outcome of `destino_terminar_silos` (main.py:5658): whether the shortfall
warning was shown, whether the discrepancy alert went to the group channel,
and the next state. -/
structure ResultadoTerminar where
  advertencia : Bool
  alertaGrupo : Bool
  siguiente : PasoDestino
deriving DecidableEq

/-- `destino_terminar_silos` (main.py:5658-5692), the handler body registered
for "No, terminar": compare `abs(peso_bascula - total_silos)` with the 0.1
tolerance; over it, warn, and additionally alert the group channel when the
difference exceeds 100 and a group chat is configured; then always move to
the photo step.  The handler is unreachable: `destino_peso_silo`
(main.py:5555), registered earlier on the same state with no text filter,
consumes every message first (see `manejadorParaSiloNum`). -/
def destino_terminar_silos (totalAcumulado pesoBascula : ℚ)
    (grupoConfigurado : Bool) : ResultadoTerminar :=
  let diferencia := |pesoBascula - totalAcumulado|
  if diferencia > 1/10 then
    ⟨true, decide (diferencia > 100) && grupoConfigurado, .foto⟩
  else ⟨false, false, .foto⟩

/-- Outcome of `destino_otro_silo` (main.py:5645): the silo numbers offered
and the next state. -/
structure ResultadoOtroSilo where
  disponibles : List ℕ
  siguiente : PasoDestino
deriving DecidableEq

/-- `destino_otro_silo` (main.py:5645-5655), the handler body registered for
"Sí, agregar otro silo": offer `[i for i in range(1, 5) if i not in
silos_usados]`; when nothing is left, go straight to the photo step, else
stay in `silo_num` prompting for one of the remaining numbers.  Like
`destino_terminar_silos`, it is unreachable behind `destino_peso_silo`. -/
def destino_otro_silo (silos : List SiloDescarga) : ResultadoOtroSilo :=
  let usados := silos.map SiloDescarga.numero
  let disponibles := (List.range' 1 4).filter fun i => !(usados.contains i)
  if disponibles = [] then ⟨disponibles, .foto⟩ else ⟨disponibles, .siloNum⟩

/-- The handler selected for a text in state `RegistroState.silo_num`. -/
inductive ManejadorSiloNum
  | pesoSilo
  | otroSilo
  | terminar
deriving DecidableEq

/-- The text filters of the three handlers registered on
`RegistroState.silo_num`, in registration order: `destino_peso_silo`
(main.py:5555, no text filter — it matches every text),
`destino_otro_silo` (main.py:5644, `F.text.lower().in_([...])`) and
`destino_terminar_silos` (main.py:5657). -/
def filtrosSiloNum : List ((String → Bool) × ManejadorSiloNum) :=
  [(fun _ => true, .pesoSilo),
   (fun texto => decide (aMinusculas texto ∈
      ["sí, agregar otro silo", "si, agregar otro silo", "sí", "si"]), .otroSilo),
   (fun texto => decide (aMinusculas texto ∈ ["no, terminar", "no"]), .terminar)]

/-- aiogram first-match dispatch among the `silo_num` handlers (the globally
registered cancel text "0" and the bot commands are consumed even earlier
and carry their own filters). -/
def manejadorParaSiloNum (texto : String) : Option ManejadorSiloNum :=
  (filtrosSiloNum.find? fun p => p.1 texto).map Prod.snd

/-- Where `destino_peso_silo` leaves the flow. -/
inductive PasoPesoSilo
  | siloPeso
  | siloNum
deriving DecidableEq

/-- Outcome of `destino_peso_silo`: the stored `silo_actual` (none when the
input was rejected and nothing changed), the next state, and whether the
group channel was messaged (this handler never does). -/
structure ResultadoPesoSilo where
  siloActual : Option ℕ
  siguiente : PasoPesoSilo
  alertaGrupo : Bool
deriving DecidableEq

/-- `destino_peso_silo` (main.py:5555-5563): accept only a digit string whose
value is between 1 and 4 — whether or not that silo was already used, the
accumulated list is not consulted — storing it as `silo_actual` and asking
for the unloaded weight; any other text (including the "Sí, agregar otro
silo" / "No, terminar" button texts) is answered with the 1-4 error, leaving
the state unchanged. -/
def destino_peso_silo (texto : String) : ResultadoPesoSilo :=
  if pyIsdigit texto ∧ 1 ≤ valorNat texto.toList ∧ valorNat texto.toList ≤ 4 then
    ⟨some (valorNat texto.toList), .siloPeso, false⟩
  else ⟨none, .siloNum, false⟩

/-! ## Anomaly detector (main.py:565-652) and the confirm handler that runs it -/

/-- An observable event of a delivery pipeline run. -/
inductive Evento
  | persistir
  | confirmarUsuario
  | intentoNotifFoto (exito : Bool)
  | intentoNotifTexto (exito : Bool)
  | finalizar
deriving DecidableEq

/-- The event is a notification attempt (of either kind). -/
def esNotificacion : Evento → Bool
  | .intentoNotifFoto _ => true
  | .intentoNotifTexto _ => true
  | _ => false

/-- The event is the persistence call. -/
def esPersistencia : Evento → Bool
  | .persistir => true
  | _ => false

/-- The event is a plain-text notification attempt. -/
def esNotifTexto : Evento → Bool
  | .intentoNotifTexto _ => true
  | _ => false

/-- `guardar_registro` (main.py:5695-5967), the pesaje-flow completion: when
a database is configured and a connection is obtained, insert the record;
then show the completion summary to the user; then, when a group chat is
configured, send the photo with the summary caption and — only if that
fails — fall back to one plain-text message; finally `finalizar_flujo`.
Failures of the notification steps are caught and never reach the earlier
steps. -/
def guardar_registro_traza (dbConfigurada dbConexionOk grupoConfigurado
    fotoNotifOk textoNotifOk : Bool) : List Evento :=
  (if dbConfigurada && dbConexionOk then [.persistir] else [])
  ++ [.confirmarUsuario]
  ++ (if grupoConfigurado then
        .intentoNotifFoto fotoNotifOk
          :: (if fotoNotifOk then [] else [.intentoNotifTexto textoNotifOk])
      else [])
  ++ [.finalizar]

/-- `guardar_registro_conductor` (main.py:2282-2358) with
`enviar_notificacion_grupo_conductor` (main.py:2360-2482): insert when a
connection is obtained; then notify the group — a plain-text summary first
and, only if it succeeded, the optional factura and pesaje photos, each
attempt guarded individually and without any fallback; then confirm to the
user and `finalizar_flujo`. -/
def guardar_registro_conductor_traza (dbConexionOk grupoConfigurado textoNotifOk
    tieneFacturaFoto facturaFotoOk tienePesajeFoto pesajeFotoOk : Bool) : List Evento :=
  (if dbConexionOk then [.persistir] else [])
  ++ (if grupoConfigurado then
        .intentoNotifTexto textoNotifOk
          :: (if textoNotifOk then
                (if tieneFacturaFoto then [.intentoNotifFoto facturaFotoOk] else [])
                ++ (if tienePesajeFoto then [.intentoNotifFoto pesajeFotoOk] else [])
              else [])
      else [])
  ++ [.confirmarUsuario, .finalizar]

/-- Every event satisfying `p` occurs strictly before every event
satisfying `q`. -/
def ocurreAntes (t : List Evento) (p q : Evento → Bool) : Prop :=
  ∀ i j : Fin t.length, p (t.get i) = true → q (t.get j) = true → (i : ℕ) < j

instance (t : List Evento) (p q : Evento → Bool) : Decidable (ocurreAntes t p q) := by
  unfold ocurreAntes; infer_instance

/-! ## Inactivity reaper (main.py:768-934) -/

/-- Which table `guardar_registro_inactivo` (main.py:773-884) writes to,
decided by substring tests on the aiogram state string. -/
inductive TablaInactivo
  | conductores
  | operarioFijoGranja
  | medicionSilos
  | sitio3Animales
deriving DecidableEq

/-- The branch dispatch of `guardar_registro_inactivo` on the state name:
`"ConductoresState" in name`, `"OperarioSitio1State" in name`, then
`"sitio3" in name.lower() or "RegistroState" in name` (splitting on
`"medicion" in name.lower()`); no branch, no insert. -/
def tablaRegistroInactivo (stateName : String) : Option TablaInactivo :=
  if contiene stateName "ConductoresState" then some .conductores
  else if contiene stateName "OperarioSitio1State" then some .operarioFijoGranja
  else if contiene (aMinusculas stateName) "sitio3" || contiene stateName "RegistroState" then
    if contiene (aMinusculas stateName) "medicion" then some .medicionSilos
    else some .sitio3Animales
  else none

/-- `guardar_registro_inactivo` observable effect: `(database inserts,
group-channel sends)`.  Without a connection it returns immediately; with
one, the matched branch performs exactly one insert; the function contains
no group-channel call at all. -/
def guardar_registro_inactivo (dbConexionOk : Bool) (stateName : String) : ℕ × ℕ :=
  if !dbConexionOk then (0, 0)
  else match tablaRegistroInactivo stateName with
    | some _ => (1, 0)
    | none => (0, 0)

/-- Observable outcome of one `timeout_middleware` pass for one user. -/
structure ResultadoTimeout where
  persistencias : ℕ
  notifGrupo : ℕ
  avisoUsuario : Bool
  estadoLimpiado : Bool
  manejadorEjecutado : Bool
deriving DecidableEq

/-- `timeout_middleware` (main.py:886-934).  `eventoConFromUser` models the
main.py:890 guard `hasattr(event, 'from_user') and event.from_user`.  Under
the guard: when the user has recorded activity and more than 20 minutes have
passed, and a state other than `RegistroState:menu_principal` is active,
save the partial record with `guardar_registro_inactivo`, tell the user the
session expired, clear the state, and do not run the normal handler; in
every other case fall through to the normal handler. -/
def timeout_middleware (eventoConFromUser teniaActividad : Bool)
    (minutosTranscurridos : ℚ) (currentState : Option String)
    (dbConexionOk : Bool) : ResultadoTimeout :=
  if eventoConFromUser then
    if teniaActividad ∧ minutosTranscurridos > 20 then
      match currentState with
      | some st =>
        if st ≠ "RegistroState:menu_principal" then
          let e := guardar_registro_inactivo dbConexionOk st
          ⟨e.1, e.2, true, true, false⟩
        else ⟨0, 0, false, false, true⟩
      | none => ⟨0, 0, false, false, true⟩
    else ⟨0, 0, false, false, true⟩
  else ⟨0, 0, false, false, true⟩

/-- The middleware is registered with `@dp.update.middleware()`
(main.py:886), so its `event` is an aiogram `Update`, which has no
`from_user` attribute: the main.py:890 guard is false on every event — and,
since the `user_last_activity` bookkeeping (main.py:931) lives under the
same guard, no activity is ever recorded either. -/
def eventoUpdateConFromUser : Bool := false

/-! ## Helper lemmas -/

lemma longitud_toList (s : String) : s.length = s.toList.length := rfl

lemma esDigitos_iff (cs : List Char) :
    esDigitos cs = true ↔ ∀ c, c ∈ cs → c.isDigit = true := by
  simp [esDigitos, List.all_eq_true]

lemma digitos_coma_chars :
    ∀ cs, digitosLuegoComaOpcional cs = true → ∀ c, c ∈ cs → c.isDigit = true ∨ c = ',' := by
  intro cs
  induction cs with
  | nil => intro _ c hc; cases hc
  | cons a as ih =>
    intro h c hc
    unfold digitosLuegoComaOpcional at h
    by_cases ha : a.isDigit = true
    · rw [if_pos ha] at h
      rcases List.mem_cons.mp hc with rfl | hc2
      · exact Or.inl ha
      · exact ih h c hc2
    · rw [if_neg ha] at h
      by_cases ha2 : a = ','
      · rw [if_pos ha2] at h
        rcases List.mem_cons.mp hc with rfl | hc2
        · exact Or.inr ha2
        · rw [Bool.and_eq_true] at h
          exact Or.inl ((esDigitos_iff as).mp h.2 c hc2)
      · rw [if_neg ha2] at h; cases h

lemma reemplazar_idempotente (s : String) :
    reemplazarComaPorPunto (reemplazarComaPorPunto s) = reemplazarComaPorPunto s := by
  unfold reemplazarComaPorPunto
  have ht : (String.mk (s.toList.map fun c => if c = ',' then '.' else c)).toList
      = s.toList.map fun c => if c = ',' then '.' else c := rfl
  rw [ht, List.map_map]
  have hf : ((fun c => if c = ',' then '.' else c) ∘ fun c : Char => if c = ',' then '.' else c)
      = fun c : Char => if c = ',' then '.' else c := by
    funext c
    by_cases h : c = ',' <;> simp [h]
  rw [hf]

/-- C6 — corrected.  The claim reads both cited identity validators as
rejecting lengths outside [6,12]; `validar_cedula` has no length check at
all: it accepts the 5-digit string "12345" and the 13-digit string
"1234567890123". -/
theorem c6_contraejemplo :
    validar_cedula "12345" = true ∧ ("12345" : String).length = 5
    ∧ validar_cedula "1234567890123" = true ∧ ("1234567890123" : String).length = 13 := by
  decide

/-- C6 (amended) — `validar_cedula_sitio3` accepts exactly the all-digit
strings of length 6 to 12; `validar_cedula` accepts exactly the non-empty
all-digit strings of any length. -/
theorem c6_teorema (s : String) :
    (validar_cedula_sitio3 s = true
      ↔ ((∀ c, c ∈ s.toList → c.isDigit = true) ∧ 6 ≤ s.length ∧ s.length ≤ 12))
    ∧ (validar_cedula s = true
      ↔ (s.toList ≠ [] ∧ ∀ c, c ∈ s.toList → c.isDigit = true)) := by
  constructor
  · unfold validar_cedula_sitio3 pyIsdigit
    rw [Bool.and_eq_true, Bool.and_eq_true, Bool.and_eq_true]
    simp only [decide_eq_true_eq, esDigitos_iff]
    constructor
    · rintro ⟨⟨⟨_, hd⟩, h6⟩, h12⟩
      exact ⟨hd, h6, h12⟩
    · rintro ⟨hd, h6, h12⟩
      refine ⟨⟨⟨?_, hd⟩, h6⟩, h12⟩
      intro hnil
      rw [longitud_toList, hnil] at h6
      simp at h6
  · unfold validar_cedula pyIsdigit
    rw [Bool.and_eq_true]
    simp only [decide_eq_true_eq, esDigitos_iff]

/-- C7 — corrected.  The claim says every cited decimal-weight validator
accepts both '.' and ',' separators and enforces a ceiling; `validar_peso`
(the weight validator of the pesaje flow, used for the gross scale weight)
rejects the dot form "10.5" — which the silo validator accepts — and has no
ceiling at all (it accepts "9999999"). -/
theorem c7_contraejemplo :
    validar_peso "10.5" = false
    ∧ (validar_peso_toneladas "10.5").isSome = true
    ∧ validar_peso "9999999" = true := by
  refine ⟨by decide, ?_, by decide⟩
  have h : pyFloat? (reemplazarComaPorPunto "10.5") = some ((105 : ℚ) / 10 ^ 1) := rfl
  unfold validar_peso_toneladas
  rw [h]
  dsimp only
  rw [if_neg (by norm_num), if_neg (by norm_num)]
  rfl

/-- C7 (amended) — the silo-tonnes and silo-kilos validators accept either
separator (normalizing the comma to a dot) and enforce their ceilings, with
0 allowed for tonnes and excluded for kilos; the pesaje-flow validator
`validar_peso` never accepts a string containing a dot (only the comma form)
and the amended acceptance regions are exactly `0 ≤ q ≤ 50` and
`0 < q ≤ 25000`. -/
theorem c7_teorema (s : String) :
    (validar_peso_toneladas s =
      match pyFloat? (reemplazarComaPorPunto s) with
      | none => none
      | some q => if 0 ≤ q ∧ q ≤ 50 then some (redondear2 q) else none)
    ∧ (validar_peso_kilos_descargue s =
      match pyFloat? (reemplazarComaPorPunto s) with
      | none => none
      | some q => if 0 < q ∧ q ≤ 25000 then some (redondear2 q) else none)
    ∧ ('.' ∈ s.toList → validar_peso s = false)
    ∧ validar_peso_toneladas (reemplazarComaPorPunto s) = validar_peso_toneladas s := by
  refine ⟨?_, ?_, ?_, ?_⟩
  · unfold validar_peso_toneladas
    cases h : pyFloat? (reemplazarComaPorPunto s) with
    | none => rfl
    | some q =>
      dsimp only
      by_cases h1 : q < 0
      · rw [if_pos h1, if_neg (by intro hc; linarith [hc.1])]
      · by_cases h2 : q > 50
        · rw [if_neg h1, if_pos h2, if_neg (by intro hc; linarith [hc.2])]
        · rw [if_neg h1, if_neg h2, if_pos ⟨by linarith, by linarith⟩]
  · unfold validar_peso_kilos_descargue
    cases h : pyFloat? (reemplazarComaPorPunto s) with
    | none => rfl
    | some q =>
      dsimp only
      by_cases h1 : q ≤ 0
      · rw [if_pos h1, if_neg (by intro hc; linarith [hc.1])]
      · by_cases h2 : q > 25000
        · rw [if_neg h1, if_pos h2, if_neg (by intro hc; linarith [hc.2])]
        · rw [if_neg h1, if_neg h2, if_pos ⟨by linarith, by linarith⟩]
  · intro hdot
    unfold validar_peso
    cases hl : s.toList with
    | nil => rfl
    | cons c cs =>
      rw [hl] at hdot
      rcases List.mem_cons.mp hdot with rfl | hmem
      · have : ('.' : Char).isDigit = false := by decide
        simp [this]
      · cases hdc : digitosLuegoComaOpcional cs
        · simp [hdc]
        · rcases digitos_coma_chars cs hdc '.' hmem with h | h
        
          · exact absurd h (by decide)
          · exact absurd h (by decide)
  · unfold validar_peso_toneladas
    rw [reemplazar_idempotente]

/-- C7 witness: the universally quantified conjuncts of `c7_teorema`
instantiated at "10.5". -/
theorem c7_testigo : validar_peso "10.5" = false :=
  (c7_teorema "10.5").2.2.1 (by decide)

lemma sitio3_get_cedula_rechazo (s : Sesion) (b : String)
    (h : validar_cedula_sitio3 (pyStrip b) = false) :
    sitio3_get_cedula s b = (s, [.cedulaInvalida]) := by
  unfold sitio3_get_cedula
  simp [h]

lemma medicion_get_cedula_rechazo (s : Sesion) (b : String)
    (h : validar_cedula_sitio3 (pyStrip b) = false) :
    medicion_get_cedula s b = (s, [.cedulaInvalida]) := by
  unfold medicion_get_cedula
  simp [h]

lemma foldl_rechazos_sitio3 :
    ∀ (malos : List String) (s : Sesion),
      (∀ b, b ∈ malos → validar_cedula_sitio3 (pyStrip b) = false) →
      List.foldl (fun t b => (sitio3_get_cedula t b).1) s malos = s
  | [], _, _ => rfl
  | b :: bs, s, h => by
    have h1 : (sitio3_get_cedula s b).1 = s := by
      rw [sitio3_get_cedula_rechazo s b (h b (List.mem_cons_self b bs))]
    simp only [List.foldl_cons, h1]
    exact foldl_rechazos_sitio3 bs s fun x hx => h x (List.mem_cons_of_mem _ hx)

lemma foldl_rechazos_medicion :
    ∀ (malos : List String) (s : Sesion),
      (∀ b, b ∈ malos → validar_cedula_sitio3 (pyStrip b) = false) →
      List.foldl (fun t b => (medicion_get_cedula t b).1) s malos = s
  | [], _, _ => rfl
  | b :: bs, s, h => by
    have h1 : (medicion_get_cedula s b).1 = s := by
      rw [medicion_get_cedula_rechazo s b (h b (List.mem_cons_self b bs))]
    simp only [List.foldl_cons, h1]
    exact foldl_rechazos_medicion bs s fun x hx => h x (List.mem_cons_of_mem _ hx)

/-- C2 — confirmed.  A rejected input leaves the cited handlers' session
(state identifier and data) untouched and only re-prompts; consequently any
run of rejected inputs followed by one valid input lands in exactly the
session reached by the valid input alone; and in the confirm state an input
matching no transition ("1"/"2") also leaves the session untouched. -/
theorem c2_teorema (s : Sesion) (malos : List String) (valido : String)
    (h : ∀ b, b ∈ malos → validar_cedula_sitio3 (pyStrip b) = false) :
    (∀ b, b ∈ malos →
      sitio3_get_cedula s b = (s, [.cedulaInvalida])
        ∧ medicion_get_cedula s b = (s, [.cedulaInvalida]))
    ∧ List.foldl (fun t b => (sitio3_get_cedula t b).1) s (malos ++ [valido])
        = (sitio3_get_cedula s valido).1
    ∧ List.foldl (fun t b => (medicion_get_cedula t b).1) s (malos ++ [valido])
        = (medicion_get_cedula s valido).1
    ∧ ∀ t, t ≠ "1" → t ≠ "2" →
        sitio3_confirmar_cedula_paso s t = (s, [.opcionInvalida]) := by
  refine ⟨?_, ?_, ?_, ?_⟩
  · intro b hb
    exact ⟨sitio3_get_cedula_rechazo s b (h b hb), medicion_get_cedula_rechazo s b (h b hb)⟩
  · rw [List.foldl_append, foldl_rechazos_sitio3 malos s h]
    rfl
  · rw [List.foldl_append, foldl_rechazos_medicion malos s h]
    rfl
  · intro t h1 h2
    unfold sitio3_confirmar_cedula_paso
    rw [if_neg h1, if_neg h2]

/-- C2 witness: `c2_teorema` at a concrete session, two rejected inputs and
one valid input. -/
theorem c2_testigo :
    List.foldl (fun t b => (sitio3_get_cedula t b).1)
        ⟨some .sitio3_cedula, []⟩ (["abc", "12"] ++ ["123456"])
      = (sitio3_get_cedula ⟨some .sitio3_cedula, []⟩ "123456").1
    ∧ sitio3_get_cedula ⟨some .sitio3_cedula, []⟩ "abc"
      = (⟨some .sitio3_cedula, []⟩, [.cedulaInvalida]) := by
  have h := c2_teorema ⟨some .sitio3_cedula, []⟩ ["abc", "12"] "123456" (by decide)
  exact ⟨h.2.1, (h.1 "abc" (by decide)).1⟩

lemma despachar_cancela (manejador : Sesion → String → Paso) (e : EstadoFSM)
    (datos : List (String × Valor)) (h : e ≠ .menu_principal) :
    despachar manejador ⟨some e, datos⟩ "0"
      = (⟨some .menu_principal, []⟩, [.cancelada, .menuPrincipal]) := by
  unfold despachar cancelar_operacion
  rw [if_pos rfl]
  exact if_pos h

/-- C9 — confirmed.  The cancel text "0" is matched before any flow handler
(the handler table is universally quantified), and for every active non-menu
state it clears the state and the accumulated data and prompts the main
menu. -/
theorem c9_teorema (manejador : Sesion → String → Paso) (e : EstadoFSM)
    (datos : List (String × Valor)) (h : e ≠ .menu_principal) :
    despachar manejador ⟨some e, datos⟩ "0"
      = (⟨some .menu_principal, []⟩, [.cancelada, .menuPrincipal]) :=
  despachar_cancela manejador e datos h

/-- C9 witness: `c9_teorema` on the embedded handler table in the live-pigs
state with accumulated data. -/
theorem c9_testigo :
    despachar manejadoresEmbebidos
        ⟨some .cerdos_vivos, [("cedula", .s "123456"), ("num_animales", .i 50)]⟩ "0"
      = (⟨some .menu_principal, []⟩, [.cancelada, .menuPrincipal]) :=
  c9_teorema manejadoresEmbebidos .cerdos_vivos
    [("cedula", .s "123456"), ("num_animales", .i 50)] (by decide)

lemma buscaDato_ponDato :
    ∀ (d : List (String × Valor)) (k : String) (v : Valor),
      buscaDato (ponDato d k v) k = some v
  | [], k, v => by simp [ponDato, buscaDato]
  | p :: ps, k, v => by
    by_cases h : p.1 = k
    · simp [ponDato, h, buscaDato]
    · simp [ponDato, h, buscaDato, buscaDato_ponDato ps k v]

/-- C10 — corrected.  The claim that no flow state can ever record the value
0 fails: the cancel filter matches only the exact raw text "0", so the
spelling "00" reaches the live-pigs handler, passes the validator (whose
minimum is 0) and stores 0 in `cerdos_vivos_temp` while the session advances
to the confirm state instead of being cancelled. -/
theorem c10_contraejemplo :
    (despachar manejadoresEmbebidos
        ⟨some .cerdos_vivos, [("num_animales", .i 10)]⟩ "00").1
      = ⟨some .confirmar_cerdos_vivos,
          [("num_animales", .i 10), ("cerdos_vivos_temp", .i 0)]⟩
    ∧ buscaDato (despachar manejadoresEmbebidos
        ⟨some .cerdos_vivos, [("num_animales", .i 10)]⟩ "00").1.datos "cerdos_vivos_temp"
      = some (.i 0) := by decide

/-- C10 (amended) — the exact text "0" always cancels the session in the
live-pigs state even though its validator accepts 0, so the literal answer
"0" is never stored; but variant spellings of zero such as "00" bypass the
cancel filter and are stored as the value 0. -/
theorem c10_teorema (datos : List (String × Valor)) (manejador : Sesion → String → Paso) :
    despachar manejador ⟨some .cerdos_vivos, datos⟩ "0"
      = (⟨some .menu_principal, []⟩, [.cancelada, .menuPrincipal])
    ∧ validar_numero_entero "0" 0 5000 = (true, 0)
    ∧ (despachar manejadoresEmbebidos ⟨some .cerdos_vivos, datos⟩ "00").1
      = ⟨some .confirmar_cerdos_vivos, ponDato datos "cerdos_vivos_temp" (.i 0)⟩
    ∧ buscaDato (ponDato datos "cerdos_vivos_temp" (.i 0)) "cerdos_vivos_temp"
      = some (.i 0) := by
  refine ⟨despachar_cancela manejador .cerdos_vivos datos (by decide), by decide, ?_,
    buscaDato_ponDato datos "cerdos_vivos_temp" (.i 0)⟩
  have hne : ("00" : String) ≠ "0" := by decide
  unfold despachar
  rw [if_neg hne]
  unfold manejadoresEmbebidos
  dsimp only
  unfold procesar_cerdos_vivos
  have hval : validar_numero_entero (pyStrip "00") 0 5000 = (true, 0) := by decide
  rw [hval]

/-- C1 — corrected.  The three-band rule does not cover every accumulated
list: when a confirmed silo pushes the running total past the scale weight,
`destino_confirmar_silo` — the only reachable reconciliation — goes to the
photo step with only the excess warning and never notifies the group, even
for a discrepancy beyond 100 kg (here 200 kg). -/
theorem c1_contraejemplo :
    |totalSilos (destino_confirmar_silo [] 1 1200 1000).silos - 1000| > 100
    ∧ (destino_confirmar_silo [] 1 1200 1000).avisoExceso = true
    ∧ (destino_confirmar_silo [] 1 1200 1000).alertaGrupo = false
    ∧ (destino_confirmar_silo [] 1 1200 1000).siguiente = .foto := by
  have htot : totalSilos ([] ++ [(⟨1, 1200⟩ : SiloDescarga)]) = 1200 := by
    unfold totalSilos
    simp
  simp only [destino_confirmar_silo]
  rw [htot, if_pos (by norm_num), if_neg (by norm_num)]
  refine ⟨?_, rfl, rfl, rfl⟩
  rw [htot]
  norm_num

/-- C1 (amended) — the handler body registered for "No, terminar"
(`destino_terminar_silos`) embodies exactly the three claimed bands (silent
within 0.1, warning above it and always continuing to the photo step, group
notification additionally above 100 when the group chat is configured; no
alert without one), but it is dead code: the first-match dispatch on
`silo_num` selects `destino_peso_silo` for every text, which answers the
finish text with the 1-4 error, stays in the loop and never notifies the
group; and the reachable reconciliation `destino_confirmar_silo` never
notifies the group either — so the program never sends the >100 discrepancy
alert. -/
theorem c1_teorema (silos : List SiloDescarga) (pesoBascula : ℚ) (g : Bool)
    (otros : List SiloDescarga) (n : ℕ) (p b : ℚ) (texto : String) :
    destino_terminar_silos (totalSilos silos) pesoBascula true
      = (if |pesoBascula - totalSilos silos| ≤ 1/10 then ⟨false, false, .foto⟩
         else if |pesoBascula - totalSilos silos| ≤ 100 then ⟨true, false, .foto⟩
         else ⟨true, true, .foto⟩)
    ∧ (destino_terminar_silos (totalSilos silos) pesoBascula g).siguiente = .foto
    ∧ (destino_terminar_silos (totalSilos silos) pesoBascula false).alertaGrupo = false
    ∧ manejadorParaSiloNum texto = some .pesoSilo
    ∧ destino_peso_silo "No, terminar" = ⟨none, .siloNum, false⟩
    ∧ (destino_peso_silo texto).alertaGrupo = false
    ∧ (destino_confirmar_silo otros n p b).alertaGrupo = false := by
  refine ⟨?_, ?_, ?_, rfl, by decide, ?_, ?_⟩
  · unfold destino_terminar_silos
    by_cases h1 : |pesoBascula - totalSilos silos| ≤ 1/10
    · rw [if_neg (not_lt.mpr h1), if_pos h1]
    · rw [if_pos (not_le.mp h1), if_neg h1]
      by_cases h2 : |pesoBascula - totalSilos silos| ≤ 100
      · rw [if_pos h2]
        have : decide (|pesoBascula - totalSilos silos| > 100) = false := by
          simp [not_lt.mpr h2]
        rw [this]
        rfl
      · rw [if_neg h2]
        have : decide (|pesoBascula - totalSilos silos| > 100) = true := by
          simp [not_le.mp h2]
        rw [this]
        rfl
  · unfold destino_terminar_silos
    by_cases h1 : |pesoBascula - totalSilos silos| > 1/10
    · rw [if_pos h1]
    · rw [if_neg h1]
  · unfold destino_terminar_silos
    by_cases h1 : |pesoBascula - totalSilos silos| > 1/10
    · rw [if_pos h1]
      simp
    · rw [if_neg h1]
  · unfold destino_peso_silo
    by_cases h1 : pyIsdigit texto = true ∧ 1 ≤ valorNat texto.toList
        ∧ valorNat texto.toList ≤ 4
    · rw [if_pos h1]
    · rw [if_neg h1]
  · unfold destino_confirmar_silo
    by_cases h1 : totalSilos (otros ++ [⟨n, p⟩]) ≥ b
    · rw [if_pos h1]
      by_cases h2 : |totalSilos (otros ++ [⟨n, p⟩]) - b| ≤ 1/10
      · rw [if_pos h2]
      · rw [if_neg h2]
    · rw [if_neg h1]

lemma contains_nat (l : List ℕ) (i : ℕ) : l.contains i = true ↔ i ∈ l := List.elem_iff

/-- C8 — corrected.  After the fourth silo is confirmed with the running
total still below the scale weight, the flow stays in `silo_num` although
every silo 1-4 has been used, and there the first-match dispatch hands every
message — the "Sí, agregar otro silo" button text included — to
`destino_peso_silo`, which rejects it with the 1-4 error and keeps the loop
instead of offering remaining silos or short-circuiting to the photo step;
moreover the already-used silo number "2" is accepted again. -/
theorem c8_contraejemplo :
    ((destino_confirmar_silo [⟨1, 10⟩, ⟨2, 10⟩, ⟨3, 10⟩] 4 10 1000).silos.map
        SiloDescarga.numero = [1, 2, 3, 4])
    ∧ (destino_otro_silo
        (destino_confirmar_silo [⟨1, 10⟩, ⟨2, 10⟩, ⟨3, 10⟩] 4 10 1000).silos).disponibles
      = []
    ∧ (destino_confirmar_silo [⟨1, 10⟩, ⟨2, 10⟩, ⟨3, 10⟩] 4 10 1000).siguiente
      = .siloNum
    ∧ manejadorParaSiloNum "Sí, agregar otro silo" = some .pesoSilo
    ∧ destino_peso_silo "Sí, agregar otro silo" = ⟨none, .siloNum, false⟩
    ∧ destino_peso_silo "2" = ⟨some 2, .siloPeso, false⟩ := by
  have htot : totalSilos ([⟨1, 10⟩, ⟨2, 10⟩, ⟨3, 10⟩] ++ [(⟨4, 10⟩ : SiloDescarga)])
      = 40 := by
    unfold totalSilos
    simp
    norm_num
  simp only [destino_confirmar_silo]
  rw [htot, if_neg (by norm_num)]
  exact ⟨by decide, by decide, rfl, rfl, by decide, by decide⟩

/-- C8 (amended) — the handler body registered for "Sí, agregar otro silo"
(`destino_otro_silo`) computes exactly the silo numbers of 1-4 not yet used
and would short-circuit straight to the photo step when none remain, but it
is dead code: the first-match dispatch on `silo_num` selects
`destino_peso_silo` for every text, and that live handler accepts any digit
1-4 — repeats included, independent of the accumulated list — rejecting
everything else and staying in the loop; after a confirmed silo the flow
reaches the photo step exactly when the running total has reached the scale
weight. -/
theorem c8_teorema (silos : List SiloDescarga) (n : ℕ) (p b : ℚ) (texto : String) :
    (∀ i : ℕ, i ∈ (destino_otro_silo silos).disponibles
      ↔ (i ∈ List.range' 1 4 ∧ ¬ i ∈ silos.map SiloDescarga.numero))
    ∧ ((destino_otro_silo silos).siguiente
        = if (destino_otro_silo silos).disponibles = [] then .foto else .siloNum)
    ∧ ((destino_confirmar_silo silos n p b).siguiente
        = if totalSilos (silos ++ [⟨n, p⟩]) ≥ b then .foto else .siloNum)
    ∧ manejadorParaSiloNum texto = some .pesoSilo
    ∧ ∀ k : ℕ, ((destino_peso_silo texto).siloActual = some k
        ↔ (pyIsdigit texto = true ∧ valorNat texto.toList = k ∧ 1 ≤ k ∧ k ≤ 4)) := by
  refine ⟨?_, ?_, ?_, rfl, ?_⟩
  · intro i
    simp only [destino_otro_silo]
    by_cases h : (List.range' 1 4).filter
        (fun i => !((silos.map SiloDescarga.numero).contains i)) = []
    · rw [if_pos h]
      dsimp only
      rw [h]
      constructor
      · intro hc
        cases hc
      · intro hc
        have hmem : i ∈ (List.range' 1 4).filter
            (fun i => !((silos.map SiloDescarga.numero).contains i)) := by
          simp only [List.mem_filter, Bool.not_eq_true', Bool.eq_false_iff, Ne]
          exact ⟨hc.1, fun hcon => hc.2 ((contains_nat _ _).mp hcon)⟩
        rw [h] at hmem
        cases hmem
    · rw [if_neg h]
      dsimp only
      simp only [List.mem_filter, Bool.not_eq_true', Bool.eq_false_iff, Ne]
      constructor
      · rintro ⟨h1, h2⟩
        exact ⟨h1, fun hm => h2 ((contains_nat _ _).mpr hm)⟩
      · rintro ⟨h1, h2⟩
        exact ⟨h1, fun hcon => h2 ((contains_nat _ _).mp hcon)⟩
  · unfold destino_otro_silo
    by_cases h : (List.range' 1 4).filter
        (fun i => !((silos.map SiloDescarga.numero).contains i)) = []
    · rw [if_pos h]
      dsimp only
      rw [if_pos h]
    · rw [if_neg h]
      dsimp only
      rw [if_neg h]
  · unfold destino_confirmar_silo
    by_cases h1 : totalSilos (silos ++ [⟨n, p⟩]) ≥ b
    · rw [if_pos h1, if_pos h1]
      by_cases h2 : |totalSilos (silos ++ [⟨n, p⟩]) - b| ≤ 1/10
      · rw [if_pos h2]
      · rw [if_neg h2]
    · rw [if_neg h1, if_neg h1]
  · intro k
    unfold destino_peso_silo
    by_cases h1 : pyIsdigit texto = true ∧ 1 ≤ valorNat texto.toList
        ∧ valorNat texto.toList ≤ 4
    · rw [if_pos h1]
      constructor
      · intro hk
        have hk2 : valorNat texto.toList = k := by simpa using hk
        exact ⟨h1.1, hk2, by rw [← hk2]; exact h1.2.1, by rw [← hk2]; exact h1.2.2⟩
      · rintro ⟨-, hk, -, -⟩
        exact congrArg some hk
    · rw [if_neg h1]
      constructor
      · intro hk
        cases hk
      · rintro ⟨hd, hk, hk1, hk4⟩
        exact absurd ⟨hd, by rw [hk]; exact hk1, by rw [hk]; exact hk4⟩ h1

/-- C4 — corrected.  The plain-text fallback after a failed media-attached
notification exists only in the pesaje pipeline: in a conductor-flow run
whose record was persisted and whose attached-photo send fails, no
plain-text attempt follows the failed media attempt (the only text message
was sent before it). -/
theorem c4_contraejemplo :
    Evento.persistir ∈ guardar_registro_conductor_traza true true true true false false false
    ∧ Evento.intentoNotifFoto false
        ∈ guardar_registro_conductor_traza true true true true false false false
    ∧ ¬ ∃ i j : Fin (guardar_registro_conductor_traza true true true true false false
          false).length, (i : ℕ) < j
        ∧ (guardar_registro_conductor_traza true true true true false false false).get i
            = .intentoNotifFoto false
        ∧ esNotifTexto ((guardar_registro_conductor_traza true true true true false false
            false).get j) = true := by decide

/-- C4 (amended) — in both completion pipelines the persistence call
precedes every notification attempt, the user's success confirmation is
always sent and persistence is unaffected by notification outcomes; in the
pesaje pipeline a failed photo notification is followed by exactly one
plain-text attempt (which comes after the failure); the conductor pipeline
has no such fallback. -/
theorem c4_teorema :
    ∀ dbc dbok tok : Bool,
      (∀ g fok : Bool,
        ocurreAntes (guardar_registro_traza dbc dbok g fok tok)
          esPersistencia esNotificacion
        ∧ Evento.confirmarUsuario ∈ guardar_registro_traza dbc dbok g fok tok
        ∧ (guardar_registro_traza dbc dbok g fok tok).contains .persistir
            = (dbc && dbok))
      ∧ ((guardar_registro_traza dbc dbok true false tok).filter esNotifTexto
          = [.intentoNotifTexto tok])
      ∧ ocurreAntes (guardar_registro_traza dbc dbok true false tok)
          (fun e => decide (e = .intentoNotifFoto false)) esNotifTexto
      ∧ ∀ g2 t2 ff fok2 fp pok2 : Bool,
          ocurreAntes (guardar_registro_conductor_traza dbok g2 t2 ff fok2 fp pok2)
            esPersistencia esNotificacion
          ∧ Evento.confirmarUsuario
              ∈ guardar_registro_conductor_traza dbok g2 t2 ff fok2 fp pok2
          ∧ (guardar_registro_conductor_traza dbok g2 t2 ff fok2 fp pok2).contains
              .persistir = dbok := by decide

/-- C5 — code bug.  As registered, the reaper never fires: with an
update-level event (no `from_user`, the `hasattr` guard false) the
middleware falls through unchanged on every input — no INACTIVO record, no
group call, no expiry notice, no state clearing — so the claimed reap
behaviour is dead code.  The guarded body, were the guard satisfiable,
implements exactly the claimed behaviour: for an active flow state past 20
minutes, one INACTIVO insert, zero group-channel calls, the expiry notice,
the state cleared and the normal handler skipped; for the idle menu state,
plain fall-through with zero persistence. -/
theorem c5_teorema (teniaActividad : Bool) (minutos : ℚ)
    (currentState : Option String) (dbConexionOk : Bool) :
    timeout_middleware eventoUpdateConFromUser teniaActividad minutos currentState
        dbConexionOk = ⟨0, 0, false, false, true⟩
    ∧ timeout_middleware true true 21 (some "ConductoresState:cedula") true
        = ⟨1, 0, true, true, false⟩
    ∧ timeout_middleware true true 21 (some "RegistroState:menu_principal") true
        = ⟨0, 0, false, false, true⟩ := by
  exact ⟨rfl, by decide, by decide⟩
